import Mathlib

/-!
Shallow embedding of the flyctl agent client
(src/internal/cli/internal/command/volumes/show.go, second embedded file,
package agent): the cancellable call executor Client.do, the lifecycle
negotiator Establish, the Establish/Probe/Resolve response handlers, the
readiness pollers WaitForTunnel and WaitForHost, and the tunnel dialer
(Client.Dialer and dialer.DialContext).

Go errors are modelled by the inductive GoErr; nil errors by Option.none.
Go pointers become Option values; a nil-pointer dereference is modelled as
an explicit GoPanic value. Scripted inputs (connection dial results, read
payloads, probe outcomes) are passed as explicit arguments, so every
definition is executable on concrete inputs.
-/

namespace AgentModel

/-- Model of a Go error value. The canceled constructor is
context.Canceled, deadlineExceeded is context.DeadlineExceeded, msg is an
error built with errors.New from a payload string, jsonError is the error
json.Unmarshal returns on its input, and classified is the result of
mapError (see below). -/
inductive GoErr where
  | canceled
  | deadlineExceeded
  | msg (s : String)
  | jsonError (input : String)
  | classified (payload slug addr : String)
  deriving DecidableEq, Repr

/-- Model of a Go panic, used for the nil-pointer dereference in
Client.Dialer when the EstablishResponse pointer is nil (line 376). -/
inductive GoPanic where
  | nilPointerDereference
  deriving DecidableEq, Repr

/-- The constant from lines 129-132: timeout = 2 * time.Second, in
nanoseconds (time.Duration counts nanoseconds). -/
def timeout : Nat := 2 * 1000000000

/-- The constant from lines 129-132: cycle = time.Second / 10, in
nanoseconds. -/
def cycle : Nat := 1000000000 / 10

/-!
Cancellable call executor: Client.do, lines 164-205.

The Go code dials with dialContext(parent), then runs two goroutines: a
watcher that waits for ctx.Done() and then closes the connection (storing
the close result in closeError), and a worker that runs err = fn(conn)
and then calls cancel(). After wg.Wait() both goroutines have finished,
so cancel() has certainly been called, hence ctx.Err() is non-nil at the
line-200 check regardless of whether the parent context was cancelled:
if the parent was cancelled first ctx.Err() is the parent's error,
otherwise the worker's own cancel() makes it context.Canceled. The final
deferred block (lines 176-180) replaces a nil err with closeError.
-/

/-- Result of Client.do, lines 164-205, as a function of the scripted
run: dialErr is the error of dialContext(parent) (line 166), fnErr the
error returned by fn (line 194), externalCancel the parent context's
error if the parent was cancelled during the call (none when no external
cancellation occurred), and closeError the result of the watcher's
conn.Close() (line 187). -/
def doResult (dialErr fnErr externalCancel closeError : Option GoErr) : Option GoErr :=
  match dialErr with
  | some e => some e
  | none =>
    let ctxErr : GoErr := externalCancel.getD .canceled
    match fnErr with
    | some _ => some ctxErr
    | none => closeError

/-!
Lifecycle negotiator: package-level Establish, lines 90-123.
-/

/-- The PingResponse record, lines 213-217; the semver Version is
modelled as a String compared for equality. -/
structure PingResponse where
  PID : Int
  Version : String
  Background : Bool
  deriving DecidableEq, Repr

/-- Observable effects of one run of the lifecycle negotiator. -/
structure NegotiationResult where
  warned : Bool
  killIssued : Bool
  sleptGrace : Bool
  startedNewDaemon : Bool
  returnedExistingClient : Bool
  errored : Bool
  deriving DecidableEq, Repr

/-- Model of the package-level Establish, lines 90-123. pruneErr is the
result of wireguard.PruneInvalidPeers (line 91); clientOk says whether
DefaultClient succeeded (lines 95-97, newClient itself pings); pingRes is
the result of the explicit Ping on line 98 (none when it errored);
buildVersion is buildinfo.Version(); killErr the result of c.Kill
(line 113). Branches: equal version returns the existing client
(line 101); differing version with Background false warns and returns the
existing client (lines 106-109); differing version with Background true
kills, sleeps one second and falls through to StartDaemon (lines 111-122);
a kill error warns and returns the error (lines 113-116); any earlier
failure falls through to StartDaemon (line 122). -/
def Establish (pruneErr : Option GoErr) (clientOk : Bool) (pingRes : Option PingResponse)
    (buildVersion : String) (killErr : Option GoErr) : NegotiationResult :=
  match pruneErr with
  | some _ => ⟨false, false, false, false, false, true⟩
  | none =>
    if clientOk then
      match pingRes with
      | some resp =>
        if buildVersion = resp.Version then
          ⟨false, false, false, false, true, false⟩
        else if !resp.Background then
          ⟨true, false, false, false, true, false⟩
        else
          match killErr with
          | some _ => ⟨true, true, false, false, false, true⟩
          | none => ⟨false, true, true, true, false, false⟩
      | none => ⟨false, false, false, true, false, false⟩
    else ⟨false, false, false, true, false, false⟩

/-!
Establish verb response handler: the closure inside Client.Establish,
lines 256-279.
-/

/-- The EstablishResponse record, lines 250-253: both fields are
pointers to opaque blobs, modelled as optional strings. -/
structure EstablishResponse where
  WireGuardState : Option String
  TunnelConfig : Option String
  deriving DecidableEq, Repr

/-- Whether a character may begin a JSON value in Go's encoding/json: a
value starts with an object brace (123), an array bracket (91), a string
quote (34), true, false, null, or a number. -/
def goJsonLeadCharValid (c : Char) : Bool :=
  c.toNat = 123 || c.toNat = 91 || c.toNat = 34 ||
    c = 't' || c = 'f' || c = 'n' || c = '-' || c.isDigit

/-- Whether a string can possibly be accepted by Go's json.Unmarshal:
after leading whitespace its first character must be a valid JSON value
start. Any Go unmarshal fails on inputs violating this. -/
def goJsonStartValid (s : String) : Bool :=
  match s.toList.dropWhile Char.isWhitespace with
  | [] => false
  | c :: _ => goJsonLeadCharValid c

/-- A concrete stand-in for json.Unmarshal into EstablishResponse,
abstracting the body of the decoder but faithful on the property used
here: it rejects every input whose first non-whitespace character cannot
begin a JSON value, which Go's json.Unmarshal always does. -/
def goUnmarshalModel (s : String) : Option EstablishResponse :=
  if goJsonStartValid s then some ⟨none, none⟩ else none

/-- Model of strings.HasPrefix, which the source's hasPrefix helper
(lines 240-248) wraps: whether p is a leading substring of data. -/
def goHasPrefix (data p : String) : Bool :=
  p.toList.isPrefixOf data.toList

/-- Model of the response handler inside Client.Establish, lines 256-279,
given the payload data read from the connection and an unmarshal function
standing for json.Unmarshal into *EstablishResponse. The source checks
hasPrefix(data, "ok ") and on failure returns errors.New(string(data))
with a nil result (lines 267-271); otherwise it unmarshals the FULL data
(line 274) — not data stripped of the prefix — nilling the result if the
unmarshal errors. -/
def establishHandler (unmarshalER : String → Option EstablishResponse) (data : String) :
    Option EstablishResponse × Option GoErr :=
  if goHasPrefix data "ok " then
    match unmarshalER data with
    | some r => (some r, none)
    | none => (none, some (.jsonError data))
  else
    (none, some (.msg data))

/-!
Readiness pollers: WaitForTunnel (lines 324-334) and WaitForHost
(lines 336-346). A run is modelled against a script: the list of
successive outcomes of the underlying Probe or Resolve call. The result
pairs the outcome the loop stops on with the number of underlying calls
made; none when the script is exhausted while still retrying.
-/

/-- Classified outcome of one Probe or Resolve call; success models a nil
error. -/
inductive Outcome where
  | success
  | tunnelError
  | hostNotFoundError
  | remoteError (s : String)
  | otherError (s : String)
  deriving DecidableEq, Repr

/-- Modelled from the spec: IsTunnelError, referenced on lines 326 and
338 but defined outside the given source, holds exactly of the retryable
tunnel-not-yet-routable classification; a nil error is not a tunnel
error. -/
def IsTunnelError : Outcome → Bool
  | .tunnelError => true
  | _ => false

/-- Modelled from the spec: IsHostNotFoundError, referenced on line 338
but defined outside the given source, holds exactly of the
remote-host-unknown classification; a nil error is not a host-not-found
error. -/
def IsHostNotFoundError : Outcome → Bool
  | .hostNotFoundError => true
  | _ => false

/-- Model of Client.WaitForTunnel, lines 324-334: probe, break unless the
outcome is a tunnel error, otherwise pause for cycle and retry. -/
def waitForTunnel : List Outcome → Option (Outcome × Nat)
  | [] => none
  | o :: rest =>
    if IsTunnelError o then
      match waitForTunnel rest with
      | some (r, n) => some (r, n + 1)
      | none => none
    else some (o, 1)

/-- Model of Client.WaitForHost, lines 336-346: resolve, break unless the
outcome is a tunnel error or a host-not-found error, otherwise pause for
cycle and retry. -/
def waitForHost : List Outcome → Option (Outcome × Nat)
  | [] => none
  | o :: rest =>
    if IsTunnelError o || IsHostNotFoundError o then
      match waitForHost rest with
      | some (r, n) => some (r, n + 1)
      | none => none
    else some (o, 1)

/-!
Tunnel dialer: Client.Dialer (lines 370-382) and dialer.DialContext
(lines 409-437).
-/

/-- The dialer record, lines 391-399: slug, a per-dial timeout
(time.Duration, an int64 nanosecond count), the tunnel state and config
pointers, and a back-reference to the client (dropped here, since only
its dialContext is used). -/
structure DialerData where
  slug : String
  perDialTimeout : Int
  state : Option String
  config : Option String
  deriving DecidableEq, Repr

/-- Model of Client.Dialer, lines 370-382: call Establish, and — the
branch as written in the source — construct the dialer exactly when err
is NON-nil, copying state and config out of the EstablishResponse
pointer. Reading a field of that pointer when it is nil is a Go
nil-pointer panic. The composite literal on lines 373-378 sets slug,
client, state and config only, so the timeout field keeps Go's zero
value 0. On a nil Establish error the function returns the zero Dialer
(none) and a nil error. -/
def clientDialer (slug : String) (er : Option EstablishResponse) (establishErr : Option GoErr) :
    Except GoPanic (Option DialerData × Option GoErr) :=
  match establishErr with
  | some e =>
    match er with
    | none => .error .nilPointerDereference
    | some r => .ok (some ⟨slug, 0, r.WireGuardState, r.TunnelConfig⟩, some e)
  | none => .ok (none, none)

/-- The timeout argument of the connect verb, line 420:
strconv.FormatInt(int64(d.timeout), 10), i.e. the decimal form of the raw
nanosecond count. -/
def timeoutArg (t : Int) : String := toString t

/-- Modelled from the spec: mapError, called on line 431 but defined
outside the given source, classifies a daemon failure payload for a slug
and address into the error taxonomy (TunnelError, HostNotFoundError, or
fatal). Only the classification boundary matters here, so it is kept as
a tagged value. -/
def mapError (payload slug addr : String) : GoErr := .classified payload slug addr

/-- Observable result of one dialer.DialContext run: the returned
connection (identified by a numeric id), the returned error, whether the
handshake connection was closed, how many connections were dialed, and
the frame arguments written for the connect verb (none when the dial
itself failed). -/
structure DialOutcome where
  conn : Option Nat
  err : Option GoErr
  closedConn : Bool
  dials : Nat
  sent : Option (List String)
  deriving DecidableEq, Repr

/-- Model of dialer.DialContext, lines 409-437, over a scripted network:
dialRes is the result of the single d.client.dialContext call (line 410),
writeErr of proto.Write(conn, "connect", d.slug, addr, timeout)
(line 421), and readRes of proto.Read (line 426). On a dial error the
function returns at once (no connection exists, nothing is closed). After
a successful dial the deferred block (lines 413-418) closes the
connection and nils it whenever err is non-nil on return. A payload other
than the literal "ok" becomes mapError(errors.New(payload), slug, addr)
(line 431); the "ok" payload returns the very handshake connection. -/
def dialerDialContext (d : DialerData) (addr : String)
    (dialRes : Except GoErr Nat) (writeErr : Option GoErr) (readRes : Except GoErr String) :
    DialOutcome :=
  match dialRes with
  | .error e => ⟨none, some e, false, 1, none⟩
  | .ok c =>
    let args := ["connect", d.slug, addr, timeoutArg d.perDialTimeout]
    match writeErr with
    | some e => ⟨none, some e, true, 1, some args⟩
    | none =>
      match readRes with
      | .error e => ⟨none, some e, true, 1, some args⟩
      | .ok data =>
        if data = "ok" then ⟨some c, none, false, 1, some args⟩
        else ⟨none, some (mapError data d.slug addr), true, 1, some args⟩

/-!
Per-verb dial paths, for the timeout policy. Each Client method reaches
the network in exactly one way; the constant timeout is applied only
inside Client.dial (lines 153-158), which wraps context.Background in
context.WithTimeout(…, timeout).
-/

/-- The protocol verbs of the client, lines 207-368 and 409-437. -/
inductive Verb where
  | ping
  | kill
  | establish
  | probe
  | resolve
  | instances
  | connect
  deriving DecidableEq, Repr

/-- How a connection is dialed: viaDo is Client.do, which calls
dialContext(parent) directly on line 166; viaDial is Client.dial,
lines 153-158, the only place the timeout constant is applied; rawContext
is dialer.DialContext, which calls client.dialContext(ctx) with the
caller's context on line 410. -/
inductive DialPath where
  | viaDo
  | viaDial
  | rawContext
  deriving DecidableEq, Repr

/-- The dial path each verb's method uses in the source: Kill (208),
Ping (220), Establish (256), Probe (285), Resolve (304) and
Instances (349) all call c.do, and the connect verb is sent by
dialer.DialContext (409). No method calls Client.dial. -/
def methodDialPath : Verb → DialPath
  | .ping => .viaDo
  | .kill => .viaDo
  | .establish => .viaDo
  | .probe => .viaDo
  | .resolve => .viaDo
  | .instances => .viaDo
  | .connect => .rawContext

/-- The fixed timeout, in nanoseconds, a dial path imposes on the
handshake beyond the caller's own context: only Client.dial imposes
one. -/
def appliedTimeoutNs : DialPath → Option Nat
  | .viaDo => none
  | .viaDial => some timeout
  | .rawContext => none

/-!
Helper lemmas, shared by the poller theorems.
-/

/-- Auxiliary: waitForTunnel consumes exactly the leading tunnel-error
outcomes and stops on the first other outcome. -/
theorem waitForTunnel_append (tes : List Outcome) (o : Outcome) (rest : List Outcome)
    (h1 : ∀ x ∈ tes, IsTunnelError x = true) (h2 : IsTunnelError o = false) :
    waitForTunnel (tes ++ o :: rest) = some (o, tes.length + 1) := by
  induction tes with
  | nil => simp [waitForTunnel, h2]
  | cons a tl ih =>
    have ha : IsTunnelError a = true := h1 a (List.mem_cons_self a tl)
    have ih' := ih fun x hx => h1 x (List.mem_cons_of_mem a hx)
    simp [waitForTunnel, ha, ih']

/-- Auxiliary: waitForHost consumes exactly the leading retryable
outcomes (tunnel error or host-not-found) and stops on the first other
outcome. -/
theorem waitForHost_append (res : List Outcome) (o : Outcome) (rest : List Outcome)
    (h1 : ∀ x ∈ res, IsTunnelError x = true ∨ IsHostNotFoundError x = true)
    (h2 : IsTunnelError o = false) (h3 : IsHostNotFoundError o = false) :
    waitForHost (res ++ o :: rest) = some (o, res.length + 1) := by
  induction res with
  | nil => simp [waitForHost, h2, h3]
  | cons a tl ih =>
    have ha : IsTunnelError a = true ∨ IsHostNotFoundError a = true :=
      h1 a (List.mem_cons_self a tl)
    have ih' := ih fun x hx => h1 x (List.mem_cons_of_mem a hx)
    rcases ha with ha | ha <;> simp [waitForHost, ha, ih']

/-!
Claim theorems.
-/

/-- C1. The claim says Client.Dialer returns a dialer exactly when
Establish succeeds, built from the non-nil Establish result. The source
(lines 370-382) does the opposite: the concrete evaluation shows that a
successful Establish (non-nil response, nil error) yields no dialer and a
nil error, while a failed Establish (nil response, non-nil error) reaches
a nil-pointer dereference building the dialer from the nil response. -/
theorem clientDialer_inverted_branch :
    clientDialer "org1" (some ⟨some "state", some "config"⟩) none = .ok (none, none) ∧
    clientDialer "org1" none (some (.msg "establish failed")) =
      .error .nilPointerDereference :=
  ⟨rfl, rfl⟩

/-- C2. The claim says that when fn fails and no external cancellation
occurred, Client.do returns fn's error verbatim. In the source the worker
always calls cancel() after fn returns (line 195), so ctx.Err() is
non-nil at the line-200 check and fn's error is replaced by
context.Canceled even without any external cancellation: with no dial
error, fn failing with a protocol error, no external cancellation and a
clean close, do returns the canceled error, which differs from fn's
error. -/
theorem do_substitutes_cancellation :
    doResult none (some (.msg "invalid prefix")) none none = some .canceled ∧
    GoErr.msg "invalid prefix" ≠ GoErr.canceled :=
  ⟨rfl, by decide⟩

/-- C3. The claim says an "ok "-prefixed JSON payload decodes into a
non-nil EstablishResponse with a nil error. The handler (lines 256-279)
unmarshals the FULL payload including the "ok " prefix, and no Go
json.Unmarshal accepts an input whose first non-whitespace character is
the letter o: on the payload consisting of "ok " followed by a JSON
object, the handler returns a nil response and the unmarshal error. -/
theorem establishHandler_ok_json_fails (um : String → Option EstablishResponse)
    (hgo : ∀ s, goJsonStartValid s = false → um s = none) :
    establishHandler um "ok \x7b\x7d" = (none, some (.jsonError "ok \x7b\x7d")) ∧
    goHasPrefix "ok \x7b\x7d" "ok " = true := by
  have h1 : um "ok \x7b\x7d" = none := hgo _ (by decide)
  refine ⟨?_, by decide⟩
  simp [establishHandler, h1, goHasPrefix]

/-- Witness for C3's theorem at the concrete unmarshal model. -/
theorem establishHandler_ok_json_fails_witness :
    establishHandler goUnmarshalModel "ok \x7b\x7d" =
      (none, some (.jsonError "ok \x7b\x7d")) ∧
    goHasPrefix "ok \x7b\x7d" "ok " = true :=
  establishHandler_ok_json_fails goUnmarshalModel
    (fun s hs => by simp [goUnmarshalModel, hs])

/-- C4. The claim says ping, kill, probe, resolve and connect handshake
under the fixed two-second timeout. In the source the timeout constant is
applied only inside Client.dial (lines 153-158), which no method calls:
every verb's method dials through Client.do with the caller's context
(line 166), and the connect verb dials with the caller's context on
line 410, so no verb's handshake carries the two-second timeout. -/
theorem no_short_timeout (v : Verb) :
    appliedTimeoutNs (methodDialPath v) = none ∧ timeout = 2000000000 := by
  cases v <;> exact ⟨rfl, rfl⟩

/-- C5. Lifecycle negotiation, lines 90-123: a reachable daemon with
equal version returns the existing client with no kill; a differing
version with Background false warns, issues no kill and returns the
existing client; a differing version with Background true and a
successful kill issues the kill, sleeps the one-second grace period and
starts a new daemon. -/
theorem Establish_lifecycle (resp : PingResponse) (b : String) (ke : Option GoErr) :
    (b = resp.Version →
      Establish none true (some resp) b ke = ⟨false, false, false, false, true, false⟩) ∧
    (b ≠ resp.Version → resp.Background = false →
      Establish none true (some resp) b ke = ⟨true, false, false, false, true, false⟩) ∧
    (b ≠ resp.Version → resp.Background = true →
      Establish none true (some resp) b none = ⟨false, true, true, true, false, false⟩) := by
  refine ⟨fun h => ?_, fun h hb => ?_, fun h hb => ?_⟩
  · simp [Establish, h]
  · simp [Establish, h, hb]
  · simp [Establish, h, hb]

/-- Witness for C5's theorem at concrete ping responses and versions. -/
theorem Establish_lifecycle_witness :
    Establish none true (some ⟨1, "0.0.200", true⟩) "0.0.200" none =
      ⟨false, false, false, false, true, false⟩ ∧
    Establish none true (some ⟨1, "0.0.200", false⟩) "0.0.201" none =
      ⟨true, false, false, false, true, false⟩ ∧
    Establish none true (some ⟨1, "0.0.200", true⟩) "0.0.201" none =
      ⟨false, true, true, true, false, false⟩ :=
  ⟨(Establish_lifecycle ⟨1, "0.0.200", true⟩ "0.0.200" none).1 rfl,
   (Establish_lifecycle ⟨1, "0.0.200", false⟩ "0.0.201" none).2.1 (by decide) rfl,
   (Establish_lifecycle ⟨1, "0.0.200", true⟩ "0.0.201" none).2.2 (by decide) rfl⟩

/-- C6. dialer.DialContext, lines 409-437: when the daemon replies with
the literal "ok", the returned connection is exactly the handshake
connection, it is not closed, and only one connection was dialed; a dial
failure returns no connection and the dial error; a write or read failure
closes the handshake connection and returns no connection with the
error; a non-"ok" payload closes the handshake connection and returns no
connection with the mapError-classified error. In every case exactly one
connection is dialed. -/
theorem dialContext_handshake (d : DialerData) (addr : String) (c : Nat) (e : GoErr)
    (we : Option GoErr) (rr : Except GoErr String) (data : String) (hd : data ≠ "ok") :
    dialerDialContext d addr (.ok c) none (.ok "ok") =
      ⟨some c, none, false, 1, some ["connect", d.slug, addr, timeoutArg d.perDialTimeout]⟩ ∧
    dialerDialContext d addr (.error e) we rr = ⟨none, some e, false, 1, none⟩ ∧
    dialerDialContext d addr (.ok c) (some e) rr =
      ⟨none, some e, true, 1, some ["connect", d.slug, addr, timeoutArg d.perDialTimeout]⟩ ∧
    dialerDialContext d addr (.ok c) none (.error e) =
      ⟨none, some e, true, 1, some ["connect", d.slug, addr, timeoutArg d.perDialTimeout]⟩ ∧
    dialerDialContext d addr (.ok c) none (.ok data) =
      ⟨none, some (mapError data d.slug addr), true, 1,
        some ["connect", d.slug, addr, timeoutArg d.perDialTimeout]⟩ := by
  refine ⟨rfl, rfl, rfl, rfl, ?_⟩
  simp [dialerDialContext, hd]

/-- Witness for C6's theorem at a concrete dialer, address, connection
and failure payload. -/
theorem dialContext_handshake_witness :
    dialerDialContext ⟨"org1", 0, none, none⟩ "10.0.0.5:80" (.ok 7) none (.ok "ok") =
      ⟨some 7, none, false, 1, some ["connect", "org1", "10.0.0.5:80", "0"]⟩ ∧
    dialerDialContext ⟨"org1", 0, none, none⟩ "10.0.0.5:80" (.error (.msg "refused"))
        none (.ok "ok") = ⟨none, some (.msg "refused"), false, 1, none⟩ ∧
    dialerDialContext ⟨"org1", 0, none, none⟩ "10.0.0.5:80" (.ok 7)
        (some (.msg "refused")) (.ok "ok") =
      ⟨none, some (.msg "refused"), true, 1,
        some ["connect", "org1", "10.0.0.5:80", "0"]⟩ ∧
    dialerDialContext ⟨"org1", 0, none, none⟩ "10.0.0.5:80" (.ok 7) none
        (.error (.msg "refused")) =
      ⟨none, some (.msg "refused"), true, 1,
        some ["connect", "org1", "10.0.0.5:80", "0"]⟩ ∧
    dialerDialContext ⟨"org1", 0, none, none⟩ "10.0.0.5:80" (.ok 7) none
        (.ok "tunnel unavailable") =
      ⟨none, some (mapError "tunnel unavailable" "org1" "10.0.0.5:80"), true, 1,
        some ["connect", "org1", "10.0.0.5:80", "0"]⟩ :=
  dialContext_handshake ⟨"org1", 0, none, none⟩ "10.0.0.5:80" 7 (.msg "refused")
    none (.ok "ok") "tunnel unavailable" (by decide)

/-- C7. WaitForTunnel, lines 324-334, retries exactly while the probe
outcome is a tunnel error and returns the first non-tunnel-error outcome
as-is, having made one underlying call per script entry consumed; on the
scripted sequence of two tunnel errors followed by success it makes
exactly three probe calls and returns success; the retry interval is the
fixed 100-millisecond cycle. -/
theorem waitForTunnel_retries (tes : List Outcome) (o : Outcome) (rest : List Outcome)
    (h1 : ∀ x ∈ tes, IsTunnelError x = true) (h2 : IsTunnelError o = false) :
    waitForTunnel (tes ++ o :: rest) = some (o, tes.length + 1) ∧
    waitForTunnel [.tunnelError, .tunnelError, .success] = some (.success, 3) ∧
    cycle = 100000000 :=
  ⟨waitForTunnel_append tes o rest h1 h2, rfl, rfl⟩

/-- Witness for C7's theorem at the scripted sequence of the claim. -/
theorem waitForTunnel_retries_witness :
    waitForTunnel ([.tunnelError, .tunnelError] ++ .success :: []) = some (.success, 3) ∧
    waitForTunnel [.tunnelError, .tunnelError, .success] = some (.success, 3) ∧
    cycle = 100000000 :=
  waitForTunnel_retries [.tunnelError, .tunnelError] .success [] (by decide) (by decide)

/-- C8. WaitForHost, lines 336-346, retries exactly while the resolve
outcome is a tunnel error or a host-not-found error and returns the
first other outcome as-is, having made one underlying call per script
entry consumed; on the scripted sequence host-not-found, tunnel error,
success it makes exactly three resolve calls and returns success, and on
a single remote error it makes exactly one call and returns that error
with no retry. -/
theorem waitForHost_retries (res : List Outcome) (o : Outcome) (rest : List Outcome)
    (h1 : ∀ x ∈ res, IsTunnelError x = true ∨ IsHostNotFoundError x = true)
    (h2 : IsTunnelError o = false) (h3 : IsHostNotFoundError o = false) :
    waitForHost (res ++ o :: rest) = some (o, res.length + 1) ∧
    waitForHost [.hostNotFoundError, .tunnelError, .success] = some (.success, 3) ∧
    waitForHost [.remoteError "no such org"] = some (.remoteError "no such org", 1) :=
  ⟨waitForHost_append res o rest h1 h2 h3, by decide, by decide⟩

/-- Witness for C8's theorem at the scripted sequences of the claim. -/
theorem waitForHost_retries_witness :
    waitForHost ([.hostNotFoundError, .tunnelError] ++ .success :: []) =
      some (.success, 3) ∧
    waitForHost [.hostNotFoundError, .tunnelError, .success] = some (.success, 3) ∧
    waitForHost [.remoteError "no such org"] = some (.remoteError "no such org", 1) :=
  waitForHost_retries [.hostNotFoundError, .tunnelError] .success [] (by decide)
    (by decide) (by decide)

/-- C9. Client.do, lines 164-205: when fn completes with a nil error and
no external cancellation occurred, the call returns the watcher's close
result — nil when the forced close succeeded, so fn's nil result and
never a substituted cancellation error — and when fn returned an error
the close result is not surfaced at all: the result is the same whatever
the close error was. -/
theorem do_success_preserves_result (ce : Option GoErr) (e : GoErr)
    (ec ce1 ce2 : Option GoErr) :
    doResult none none none ce = ce ∧
    doResult none (some e) ec ce1 = doResult none (some e) ec ce2 :=
  ⟨rfl, rfl⟩

/-- C10. Every dialer the Client.Dialer construction branch produces has
perDialTimeout zero (the composite literal on lines 373-378 never sets
the timeout field), so the connect handshake it sends carries the
literal "0" as the timeout argument; and the argument is formatted from
the raw nanosecond count (strconv.FormatInt of the time.Duration,
line 420), so even a nonzero two-second timeout would be sent as its
nanosecond count, not as milliseconds. -/
theorem dialer_zero_timeout (s : String) (er : EstablishResponse) (ee : GoErr)
    (d : DialerData) (e2 : Option GoErr) (addr : String) (c : Nat)
    (h : clientDialer s (some er) (some ee) = .ok (some d, e2)) :
    d.perDialTimeout = 0 ∧
    (dialerDialContext d addr (.ok c) none (.ok "ok")).sent =
      some ["connect", d.slug, addr, "0"] ∧
    timeoutArg 2000000000 = "2000000000" ∧
    timeoutArg (2 * 1000000000) ≠ toString ((2 * 1000000000 : Int) / 1000000) := by
  simp only [clientDialer, Except.ok.injEq, Prod.mk.injEq, Option.some.injEq] at h
  obtain ⟨h1, h2⟩ := h
  subst h1
  exact ⟨rfl, rfl, rfl, by decide⟩

/-- Witness for C10's theorem at a concrete failed Establish that
constructs a dialer. -/
theorem dialer_zero_timeout_witness :
    (⟨"org1", 0, none, none⟩ : DialerData).perDialTimeout = 0 ∧
    (dialerDialContext ⟨"org1", 0, none, none⟩ "10.0.0.5:80" (.ok 7) none
        (.ok "ok")).sent = some ["connect", "org1", "10.0.0.5:80", "0"] ∧
    timeoutArg 2000000000 = "2000000000" ∧
    timeoutArg (2 * 1000000000) ≠ toString ((2 * 1000000000 : Int) / 1000000) :=
  dialer_zero_timeout "org1" ⟨none, none⟩ (.msg "establish failed")
    ⟨"org1", 0, none, none⟩ (some (.msg "establish failed")) "10.0.0.5:80" 7 rfl

end AgentModel
